import Mathlib

/-!
Formal model of `src/fluster_editor/frontend/src/app/bottom_pane/timeline/layers.tsx`.

The file embeds the two exported React components, `Layers` (lines 11-13) and
`Layer` (lines 15-26), as total Lean functions over a small JSX fragment
language.  `FrameData` (imported from `../../types/timeline`, not part of the
provided sources) is opaque and modelled by a type parameter `α`; the
`updateLayerVisibility` callback is externally owned and modelled by an
optional reference of an opaque type `κ`, with invocations recorded as a trace
of the boolean arguments passed.

Rendering is modelled as evaluation of the component body's JSX tree.  The
expression language deliberately includes the capabilities a component body
could use (display the visibility flag, render the frame list, call the
callback, mutate the frames array in place) so that the theorems about what
the actual body does and does not do are contentful; the `Layer` body as
written in the source consists of two nested `div`s whose only expression
children are the comments on lines 19 and 22, and uses none of them.
-/

universe u

variable {α : Type} {κ : Type}

/-- An event handler attached to a rendered node.  Firing `toggleVisibility v`
invokes the `updateLayerVisibility` callback with `v`.  The source attaches no
handler to any node. -/
inductive HandlerSpec : Type where
  | toggleVisibility (newValue : Bool)
deriving DecidableEq

/-- A JSX expression container.  Only `comment` occurs in the source
(`layers.tsx` lines 19 and 22); the other forms model what an implemented
body could do with the props in scope. -/
inductive JsxExpr (α : Type) : Type where
  | comment (text : String)
  | visibilityIndicator
  | frameList
  | callUpdateVisibility (v : Bool)
  | mutateFrames (f : List α → List α)

mutual
/-- A JSX element node: a `div` with attached handlers and children. -/
inductive JsxNode (α : Type) : Type where
  | div (handlers : List HandlerSpec) (children : List (JsxChild α))
/-- A child position inside a JSX element: a nested node or an expression
container. -/
inductive JsxChild (α : Type) : Type where
  | node (n : JsxNode α)
  | expr (e : JsxExpr α)
end

/-- The rendered output tree: `div` nodes, visibility icons and per-frame
cells. -/
inductive Elem (α : Type) : Type where
  | div (handlers : List HandlerSpec) (children : List (Elem α))
  | visibilityIcon (shown : Bool)
  | frameCell (data : α)

/-- The props record of the `Layer` component (`LayerProps`, lines 5-9 of the
source): the `frames : FrameData[]` array, the `layerVisibility : boolean`
flag, and the `updateLayerVisibility` callback.  The callback is modelled as
an optional opaque reference: `none` is an omitted / unavailable callback. -/
structure LayerProps (α : Type) (κ : Type) : Type where
  frames : List α
  layerVisibility : Bool
  updateLayerVisibility : Option κ
deriving DecidableEq

/-- Run-time failures of JSX evaluation: the only fallible operation in the
model is invoking an omitted callback (a TypeError in JavaScript). -/
inductive EvalError : Type where
  | calledUndefinedCallback
deriving DecidableEq

/-- Evaluate one expression container under the component scope
(`vis` = `layerVisibility`, `cb` = `updateLayerVisibility`), threading the
current contents of the `frames` array and collecting the callback
invocations made during evaluation. -/
def evalExpr (vis : Bool) (cb : Option κ) :
    JsxExpr α → List α → Except EvalError (List (Elem α) × List Bool × List α)
  | .comment _, frames => .ok ([], [], frames)
  | .visibilityIndicator, frames => .ok ([.visibilityIcon vis], [], frames)
  | .frameList, frames => .ok (frames.map .frameCell, [], frames)
  | .callUpdateVisibility v, frames =>
      match cb with
      | some _ => .ok ([], [v], frames)
      | none => .error .calledUndefinedCallback
  | .mutateFrames f, frames => .ok ([], [], f frames)

mutual
/-- Evaluate a JSX node to a single output element, threading the frames
array and collecting callback invocations. -/
def evalNode (vis : Bool) (cb : Option κ) :
    JsxNode α → List α → Except EvalError (Elem α × List Bool × List α)
  | .div hs cs, frames => do
      let r ← evalChildren vis cb cs frames
      pure (.div hs r.1, r.2.1, r.2.2)
/-- Evaluate a list of child positions left to right. -/
def evalChildren (vis : Bool) (cb : Option κ) :
    List (JsxChild α) → List α → Except EvalError (List (Elem α) × List Bool × List α)
  | [], frames => .ok ([], [], frames)
  | .node n :: cs, frames => do
      let r ← evalNode vis cb n frames
      let rs ← evalChildren vis cb cs r.2.2
      pure (r.1 :: rs.1, r.2.1 ++ rs.2.1, rs.2.2)
  | .expr e :: cs, frames => do
      let r ← evalExpr vis cb e frames
      let rs ← evalChildren vis cb cs r.2.2
      pure (r.1 ++ rs.1, r.2.1 ++ rs.2.1, rs.2.2)
end

/-- The result of one render of `Layer`: the output tree, the trace of
`updateLayerVisibility` invocations made during the render, and the contents
of the `frames` array when the render returns (as observed by the caller
afterwards). -/
structure RenderResult (α : Type) : Type where
  tree : Elem α
  renderCalls : List Bool
  framesAfter : List α

/-- The body of `Layer` (source lines 17-24), translated node for node: a
`div` containing two `div`s whose only children are the expression containers
holding the comments `label, visibility` (line 19) and
`render frames in layer` (line 22).  No handler is attached anywhere. -/
def layerBody (α : Type) : JsxNode α :=
  .div []
    [ .node (.div [] [.expr (.comment "label, visibility")]),
      .node (.div [] [.expr (.comment "render frames in layer")]) ]

/-- The `Layer` component (source lines 15-26): it destructures `frames` and
`layerVisibility` from its props (the destructuring pattern omits
`updateLayerVisibility`, and the body references neither the callback nor any
other prop) and returns the evaluation of `layerBody`. -/
def Layer (p : LayerProps α κ) : Except EvalError (RenderResult α) :=
  (evalNode p.layerVisibility p.updateLayerVisibility (layerBody α) p.frames).map
    fun r => ⟨r.1, r.2.1, r.2.2⟩

/-- The `Layers` component (source lines 11-13): `return (<div></div>)`, an
empty placeholder with no handlers and no children. -/
def Layers (α : Type) : Elem α :=
  .div [] []

mutual
/-- Number of rendered frame cells in an output tree. -/
def countFrameCells : Elem α → Nat
  | .div _ cs => countFrameCellsList cs
  | .visibilityIcon _ => 0
  | .frameCell _ => 1
/-- Number of rendered frame cells in a list of output trees. -/
def countFrameCellsList : List (Elem α) → Nat
  | [] => 0
  | e :: es => countFrameCells e + countFrameCellsList es
end

mutual
/-- The visibility indicator shown by an output tree: the value of the first
visibility icon in tree order, or `none` when the tree shows no indicator. -/
def displayedVisibility : Elem α → Option Bool
  | .div _ cs => displayedVisibilityList cs
  | .visibilityIcon b => some b
  | .frameCell _ => none
/-- First visibility icon in a list of output trees. -/
def displayedVisibilityList : List (Elem α) → Option Bool
  | [] => none
  | e :: es =>
      match displayedVisibility e with
      | some b => some b
      | none => displayedVisibilityList es
end

mutual
/-- All event handlers present in an output tree, in tree order. -/
def collectToggles : Elem α → List HandlerSpec
  | .div hs cs => hs ++ collectTogglesList cs
  | .visibilityIcon _ => []
  | .frameCell _ => []
/-- All event handlers present in a list of output trees. -/
def collectTogglesList : List (Elem α) → List HandlerSpec
  | [] => []
  | e :: es => collectToggles e ++ collectTogglesList es
end

/-- Fire a list of toggle handlers: each fires one invocation of the
callback, which fails when the callback is omitted. -/
def fireToggles (cb : Option κ) : List HandlerSpec → Except EvalError (List Bool)
  | [] => .ok []
  | .toggleVisibility v :: hs =>
      match cb with
      | some _ => do
          let r ← fireToggles cb hs
          pure (v :: r)
      | none => .error .calledUndefinedCallback

/-- A user visibility-toggle gesture on a rendered output: fire every toggle
handler present in the tree, returning the list of values passed to the
callback (or the error raised). -/
def dispatchToggle (cb : Option κ) (e : Elem α) : Except EvalError (List Bool) :=
  fireToggles cb (collectToggles e)

/-- A sequence of renders: the component holds no React state hook, no ref
and no module-level mutable binding, so each call is the plain function
applied to that call's props. -/
def renderHistory (ps : List (LayerProps α κ)) :
    List (Except EvalError (RenderResult α)) :=
  ps.map Layer

/-- Evaluating the `Layer` body always succeeds with the fixed two-`div`
placeholder tree, no callback invocations, and the frames array untouched. -/
theorem Layer_eval (p : LayerProps α κ) :
    Layer p = .ok ⟨.div [] [.div [] [], .div [] []], [], p.frames⟩ := rfl

/-- C1: the claim says the rendered output's visibility indicator reflects the
`visible` input.  Evaluated at the failing input `frames = []`,
`layerVisibility = true`, the render succeeds but its output contains no
visibility indicator at all (`displayedVisibility` is `none`, not
`some true`): the indicator slot holds only the placeholder comment
`label, visibility`. -/
theorem c1_visibility_indicator_missing :
    (Layer (⟨[], true, none⟩ : LayerProps Nat Unit)).map
        (fun r => displayedVisibility r.tree) = .ok none := rfl

/-- C2: the claim says one toggle gesture invokes `updateLayerVisibility`
exactly once with the negated `visible` value.  Evaluated at
`frames = []`, `layerVisibility = true` with a callback supplied, the
rendered output contains no toggle handler, so a toggle gesture fires zero
invocations (`.ok []`), not one invocation with `false`
(`.ok [false]`). -/
theorem c2_toggle_control_missing :
    (Layer (⟨[], true, some ()⟩ : LayerProps Nat Unit)).map
        (fun r => (collectToggles r.tree, dispatchToggle (some ()) r.tree))
      = .ok ([], .ok []) ∧ (Except.ok [] : Except EvalError (List Bool)) ≠ .ok [false] := by
  constructor
  · rfl
  · intro h
    simp at h

/-- C3: the `Layer` render is deterministic and stateless: in any sequence of
renders, the result of rendering props `p` is `Layer p`, independent of every
preceding render, so two calls with identical arguments yield structurally
equal results regardless of history. -/
theorem c3_deterministic_stateless (hist1 hist2 : List (LayerProps α κ))
    (p : LayerProps α κ) :
    (renderHistory (hist1 ++ [p])).getLast? = (renderHistory (hist2 ++ [p])).getLast? := by
  simp [renderHistory]

/-- C4: rendering leaves the `frames` array unchanged as observed by the
caller afterwards: for every props value the render succeeds and its
`framesAfter` component equals the input `frames` list (same length, order
and elements). -/
theorem c4_frames_preserved (p : LayerProps α κ) :
    (Layer p).map (fun r => r.framesAfter) = .ok p.frames := by
  rw [Layer_eval]
  rfl

/-- C5: for the empty frames sequence and either visibility value (and any
callback), the render succeeds and the output contains zero rendered frame
cells. -/
theorem c5_empty_frames_ok (visible : Bool) (cb : Option κ) :
    (Layer (⟨[], visible, cb⟩ : LayerProps α κ)).map
        (fun r => countFrameCells r.tree) = .ok 0 := rfl

/-- C6: with the `updateLayerVisibility` callback omitted, a user toggle
gesture on the rendered output raises no error and makes zero callback
invocations (`.ok []`), so no visibility-change intent reaches the store and
a subsequent render of the same props displays the same visibility value: a
silent no-op, not a fault. -/
theorem c6_missing_callback_silent (p : LayerProps α κ)
    (h : p.updateLayerVisibility = none) :
    ∃ r, Layer p = .ok r ∧
      dispatchToggle p.updateLayerVisibility r.tree = .ok [] ∧
      (Layer p).map (fun r2 => displayedVisibility r2.tree)
        = .ok (displayedVisibility r.tree) := by
  refine ⟨⟨.div [] [.div [] [], .div [] []], [], p.frames⟩, Layer_eval p, ?_, ?_⟩
  · rw [h]
    rfl
  · rw [Layer_eval]
    rfl

/-- C6 witness: the silent no-op property instantiated at the concrete props
`frames = []`, `layerVisibility = true`, callback omitted. -/
theorem c6_missing_callback_silent_witness :
    (⟨[], true, none⟩ : LayerProps Nat Unit).updateLayerVisibility = none ∧
    (∃ r, Layer (⟨[], true, none⟩ : LayerProps Nat Unit) = .ok r ∧
      dispatchToggle (⟨[], true, none⟩ : LayerProps Nat Unit).updateLayerVisibility r.tree
        = .ok [] ∧
      (Layer (⟨[], true, none⟩ : LayerProps Nat Unit)).map
          (fun r2 => displayedVisibility r2.tree) = .ok (displayedVisibility r.tree)) :=
  ⟨rfl, c6_missing_callback_silent ⟨[], true, none⟩ rfl⟩

/-- C7: the render operation is total: for every frames sequence, visibility
value and callback, evaluating the `Layer` body returns `.ok`, never an
error — the body contains no fallible operation. -/
theorem c7_render_total (p : LayerProps α κ) : ∃ r, Layer p = .ok r :=
  ⟨⟨.div [] [.div [] [], .div [] []], [], p.frames⟩, Layer_eval p⟩

/-- C8: `Layers()` returns an empty placeholder: the same empty `div` with no
handlers, no children, hence no layer entries and no frame cells, on every
invocation. -/
theorem c8_layers_empty_placeholder (α : Type) :
    Layers α = Elem.div [] [] ∧ countFrameCells (Layers α) = 0 ∧
      collectToggles (Layers α) = [] :=
  ⟨rfl, rfl, rfl⟩

/-- C9: the rendered tree is a constant: for any two props records, including
differing visibility values and differing frame sequences, `Layer` produces
structurally identical output trees. -/
theorem c9_output_constant (p q : LayerProps α κ) :
    (Layer p).map (fun r => r.tree) = (Layer q).map (fun r => r.tree) := by
  rw [Layer_eval, Layer_eval]
  rfl

/-- C10: rendering never invokes the `updateLayerVisibility` callback: for
every props value the render's invocation trace is empty, and the output
contains no toggle handler that could invoke it later. -/
theorem c10_callback_never_invoked (p : LayerProps α κ) :
    (Layer p).map (fun r => (r.renderCalls, collectToggles r.tree)) = .ok ([], []) := by
  rw [Layer_eval]
  rfl
